import Mathlib

/-!
Verification of the URL-preview controller in
src/ssrf_poc/src/valdi/ssrf_poc/src/SSRFPOCApp.tsx.

The component keeps a single mutable state record and mutates it from
three handlers: handleMakeRequest (the Preview tap), makeRequest (the
request orchestration, whose asynchronous completion runs either a
success branch or a catch branch), and clearResults (the Clear tap).
We embed the state record and each handler as a pure function.  The
network call and the text decoder are external capabilities: we model
issuing a request as an extra output of the handler (the URL to fetch,
or none), and the decoder as a function parameter returning an optional
string (none when the bytes are not decodable as text).
-/

namespace SSRFPOC

/-- The component State interface: url, status, responseBody,
responseStatusCode (number or null), loading. -/
structure State where
  url : String
  status : String
  responseBody : String
  responseStatusCode : Option Int
  loading : Bool
deriving DecidableEq, Repr

/-- The initial state assigned at component construction. -/
def initialState : State :=
  { url := ""
  , status := "Enter a URL to preview its content"
  , responseBody := ""
  , responseStatusCode := none
  , loading := false }

/-- The value returned by the HTTP GET capability on transport success:
a status code and an optional raw byte payload (response.body may be
absent, in which case the JS truthiness test skips decoding). -/
structure HTTPResponse where
  statusCode : Int
  body : Option (List Nat)
deriving DecidableEq, Repr

/-- clearResults: setState with the four initial field values; the
loading field is not part of the update, so it is carried over. -/
def clearResults (s : State) : State :=
  { s with
    status := "Enter a URL to preview its content"
  , responseBody := ""
  , responseStatusCode := none
  , url := "" }

/-- The JS String.prototype.trim applied in the handlers: drops leading
and trailing whitespace.  Modelled on the character list so that it is
fully kernel-computable. -/
def jsTrim (s : String) : String :=
  ⟨(((s.data.dropWhile Char.isWhitespace).reverse.dropWhile
      Char.isWhitespace).reverse)⟩

/-- makeRequest's synchronous prefix: compute requestUrl as the argument
or, when absent, the trimmed state url; if it is empty set the
empty-URL error status and issue no request, otherwise enter the
loading state and issue one GET to requestUrl.  The second component
is the URL of the request issued, or none. -/
def makeRequest (s : State) (url : Option String) : State × Option String :=
  let requestUrl := url.getD (jsTrim s.url)
  if requestUrl = "" then
    ({ s with status := "Error: URL cannot be empty" }, none)
  else
    ({ s with
       loading := true
     , status := "Loading " ++ requestUrl ++ "..."
     , responseBody := ""
     , responseStatusCode := none }, some requestUrl)

/-- The URL handleMakeRequest reads: when the input element is present
(outer some), the value attribute's string (inner option, absent
collapsing to the empty string), trimmed; otherwise the trimmed state
url. -/
def effectiveUrl (s : State) (input : Option (Option String)) : String :=
  match input with
  | some v => jsTrim (v.getD "")
  | none => jsTrim s.url

/-- handleMakeRequest: drop the tap while loading; otherwise read the
URL from the input field (falling back to state), reject an empty
trimmed URL with an error status, and otherwise delegate to
makeRequest with the trimmed URL. -/
def handleMakeRequest (s : State) (input : Option (Option String)) :
    State × Option String :=
  if s.loading then (s, none)
  else
    let url := effectiveUrl s input
    if url = "" then
      ({ s with status := "Error: URL cannot be empty" }, none)
    else
      makeRequest s (some url)

/-- The bodyText computed in the success branch: empty when the body is
absent, the decoded text when decoding succeeds, and the binary-data
placeholder naming the payload's byte length when decoding throws. -/
def bodyText (decode : List Nat → Option String) (body : Option (List Nat)) :
    String :=
  match body with
  | none => ""
  | some bytes =>
    match decode bytes with
    | some t => t
    | none => "[Binary data, " ++ toString bytes.length ++ " bytes]"

/-- The success-branch setState of makeRequest's completion: loading
false, success status, the response's status code, and bodyText when
non-empty, else the no-content placeholder. -/
def onSuccess (s : State) (decode : List Nat → Option String)
    (resp : HTTPResponse) : State :=
  let t := bodyText decode resp.body
  { s with
    loading := false
  , status := "Content loaded successfully"
  , responseStatusCode := some resp.statusCode
  , responseBody := if t.length > 0 then t else "[No content]" }

/-- The catch-branch setState of makeRequest's completion: loading
false, an error status built from the error's description (or the
unknown-error fallback when the description is absent), empty body,
absent status code. -/
def onFailure (s : State) (errDesc : Option String) : State :=
  { s with
    loading := false
  , status := "Error: " ++ errDesc.getD "Unknown error"
  , responseBody := ""
  , responseStatusCode := none }

/-- A string has positive length exactly when it is not the empty
string. -/
lemma length_pos_iff_ne_empty (t : String) : t.length > 0 ↔ t ≠ "" := by
  constructor
  · intro h he
    subst he
    simp [String.length] at h
  · intro h
    cases t with
    | mk data =>
      cases data with
      | nil => exact absurd rfl h
      | cons c cs => simp [String.length]

/-- A state snapshot while a request is in flight, as produced by
makeRequest just after it issues the GET. -/
def loadingSnapshot : State :=
  { url := "http://169.254.169.254/"
  , status := "Loading http://169.254.169.254/..."
  , responseBody := ""
  , responseStatusCode := none
  , loading := true }

/-- Claim C1 counterexample: from the Loading state, clearResults does
not restore the exact initial defaults, because the loading field stays
true rather than being reset to false. -/
theorem clm_C1_counterexample : clearResults loadingSnapshot ≠ initialState := by
  decide

/-- Claim C1 (amended): for every prior state, clearResults resets url,
status, responseBody and responseStatusCode to their initial defaults
and leaves the loading flag unchanged; hence it restores the exact
initial defaults from Idle, Completed and Failed states (where loading
is already false), but from a Loading state loading remains true. -/
theorem clm_C1_clear_resets (s : State) :
    clearResults s = { initialState with loading := s.loading } := rfl

/-- Claim C2: on transport success the completion handler sets a
success status, the response's status code, loading false, and a
responseBody that is the decoded text when decoding succeeds on a
non-empty result, the no-content placeholder when the body is absent or
decodes to empty text, and the binary-data placeholder naming the byte
length when decoding fails. -/
theorem clm_C2_success_branch (s : State) (decode : List Nat → Option String)
    (resp : HTTPResponse) :
    (onSuccess s decode resp).status = "Content loaded successfully" ∧
    (onSuccess s decode resp).responseStatusCode = some resp.statusCode ∧
    (onSuccess s decode resp).loading = false ∧
    (onSuccess s decode resp).responseBody =
      (match resp.body with
       | none => "[No content]"
       | some bytes =>
         match decode bytes with
         | some t => if t = "" then "[No content]" else t
         | none => "[Binary data, " ++ toString bytes.length ++ " bytes]") := by
  refine ⟨rfl, rfl, rfl, ?_⟩
  obtain ⟨code, body⟩ := resp
  cases body with
  | none => simp [onSuccess, bodyText]
  | some bytes =>
    cases hdec : decode bytes with
    | none =>
      simp only [onSuccess, bodyText, hdec]
      rw [if_pos]
      rw [String.length_append, String.length_append]
      have h1 : 0 < "[Binary data, ".length := by decide
      omega
    | some t =>
      simp only [onSuccess, bodyText, hdec]
      by_cases ht : t = ""
      · subst ht
        simp [String.length]
      · rw [if_pos ((length_pos_iff_ne_empty t).mpr ht), if_neg ht]

/-- Claim C3: tapping Preview while loading is a no-op: the state is
returned unchanged and no request is issued. -/
theorem clm_C3_loading_noop (s : State) (input : Option (Option String))
    (h : s.loading = true) :
    handleMakeRequest s input = (s, none) := by
  simp [handleMakeRequest, h]

/-- Claim C3 witness: the no-op at a concrete in-flight state. -/
theorem clm_C3_loading_noop_witness :
    handleMakeRequest loadingSnapshot (some (some "http://x/")) =
      (loadingSnapshot, none) :=
  clm_C3_loading_noop loadingSnapshot (some (some "http://x/")) rfl

/-- Claim C4: tapping Preview while not loading with a URL whose
trimmed value is empty issues no request, sets the empty-URL error
status, and changes no other field (in particular loading stays
false). -/
theorem clm_C4_empty_url (s : State) (input : Option (Option String))
    (h : s.loading = false) (he : effectiveUrl s input = "") :
    handleMakeRequest s input =
      ({ s with status := "Error: URL cannot be empty" }, none) := by
  simp [handleMakeRequest, h, he]

/-- Claim C4 witness: whitespace-only input at the initial state is
rejected with the empty-URL error. -/
theorem clm_C4_empty_url_witness :
    handleMakeRequest initialState (some (some "   ")) =
      ({ initialState with status := "Error: URL cannot be empty" }, none) :=
  clm_C4_empty_url initialState (some (some "   ")) rfl (by decide)

/-- Claim C5: the catch branch of the completion handler produces
loading false, an absent status code, an empty responseBody, and a
status string that contains the error's description. -/
theorem clm_C5_transport_failure (s : State) (errDesc : Option String) :
    (onFailure s errDesc).loading = false ∧
    (onFailure s errDesc).responseStatusCode = none ∧
    (onFailure s errDesc).responseBody = "" ∧
    ∃ pre post,
      (onFailure s errDesc).status =
        pre ++ errDesc.getD "Unknown error" ++ post := by
  refine ⟨rfl, rfl, rfl, "Error: ", "", ?_⟩
  simp [onFailure]

/-- Claim C6: tapping Preview while not loading with a non-empty
trimmed URL synchronously enters the loading state with the
loading-status message for that URL, clears responseBody and
responseStatusCode, and issues exactly one GET to the trimmed URL. -/
theorem clm_C6_start_request (s : State) (input : Option (Option String))
    (h : s.loading = false) (hne : effectiveUrl s input ≠ "") :
    handleMakeRequest s input =
      ({ s with
         loading := true
       , status := "Loading " ++ effectiveUrl s input ++ "..."
       , responseBody := ""
       , responseStatusCode := none }, some (effectiveUrl s input)) := by
  simp [handleMakeRequest, makeRequest, h, hne]

/-- Claim C6 witness: starting a request from the initial state with a
concrete URL. -/
theorem clm_C6_start_request_witness :
    handleMakeRequest initialState (some (some " http://example.com ")) =
      ({ initialState with
         loading := true
       , status := "Loading http://example.com..."
       , responseBody := ""
       , responseStatusCode := none }, some "http://example.com") := by
  have h := clm_C6_start_request initialState (some (some " http://example.com "))
    rfl (by decide)
  rw [h]
  decide

/-- Claim C7: every completion path ends with loading false: the
success branch and the catch branch both clear the flag, and the
empty-input rejection (reached only with loading false) leaves it
false. -/
theorem clm_C7_always_unloads (s : State) (input : Option (Option String))
    (decode : List Nat → Option String) (resp : HTTPResponse)
    (errDesc : Option String) :
    (onSuccess s decode resp).loading = false ∧
    (onFailure s errDesc).loading = false ∧
    (s.loading = false → effectiveUrl s input = "" →
      (handleMakeRequest s input).1.loading = false) := by
  refine ⟨rfl, rfl, fun h he => ?_⟩
  simp [handleMakeRequest, h, he]

/-- Claim C7 witness: the empty-input rejection path at the initial
state leaves loading false. -/
theorem clm_C7_always_unloads_witness :
    (handleMakeRequest initialState none).1.loading = false :=
  (clm_C7_always_unloads initialState none (fun _ => none) ⟨200, none⟩
    none).2.2 rfl (by decide)

/-- Claim C8: clearResults is idempotent: applying it twice yields the
same state as applying it once. -/
theorem clm_C8_clear_idempotent (s : State) :
    clearResults (clearResults s) = clearResults s := rfl

/-- Claim C9: clearResults never writes the loading field: the loading
value after clear equals the loading value before, so clearing during
an in-flight request leaves loading true. -/
theorem clm_C9_clear_preserves_loading (s : State) :
    (clearResults s).loading = s.loading := rfl

/-- Claim C10: after any transport-successful completion, responseBody
is never empty: it is either non-empty decoded text, the no-content
placeholder, or the binary-data placeholder. -/
theorem clm_C10_body_never_empty (s : State) (decode : List Nat → Option String)
    (resp : HTTPResponse) :
    (onSuccess s decode resp).responseBody ≠ "" ∧
    ((∃ bytes t, resp.body = some bytes ∧ decode bytes = some t ∧ t ≠ "" ∧
        (onSuccess s decode resp).responseBody = t) ∨
     (onSuccess s decode resp).responseBody = "[No content]" ∨
     (∃ bytes, resp.body = some bytes ∧
        (onSuccess s decode resp).responseBody =
          "[Binary data, " ++ toString bytes.length ++ " bytes]")) := by
  obtain ⟨code, body⟩ := resp
  cases body with
  | none =>
    refine ⟨?_, Or.inr (Or.inl ?_)⟩ <;> simp [onSuccess, bodyText]
  | some bytes =>
    cases hdec : decode bytes with
    | none =>
      have hpos : (bodyText decode (some bytes)).length > 0 := by
        simp only [bodyText, hdec, String.length_append]
        have h1 : 0 < "[Binary data, ".length := by decide
        omega
      constructor
      · simp only [onSuccess, if_pos hpos]
        exact (length_pos_iff_ne_empty _).mp hpos
      · refine Or.inr (Or.inr ⟨bytes, rfl, ?_⟩)
        simp only [onSuccess, if_pos hpos]
        simp [bodyText, hdec]
    | some t =>
      by_cases ht : t = ""
      · subst ht
        have hz : (bodyText decode (some bytes)).length = 0 := by
          simp [bodyText, hdec, String.length]
        refine ⟨?_, Or.inr (Or.inl ?_)⟩ <;>
          simp [onSuccess, hz]
      · have hpos : (bodyText decode (some bytes)).length > 0 := by
          simpa [bodyText, hdec] using (length_pos_iff_ne_empty t).mpr ht
        constructor
        · simp only [onSuccess, if_pos hpos]
          exact (length_pos_iff_ne_empty _).mp hpos
        · refine Or.inl ⟨bytes, t, rfl, hdec, ht, ?_⟩
          simp only [onSuccess, if_pos hpos]
          simp [bodyText, hdec]

end SSRFPOC
